import Mathlib

/-!
Shallow embedding of the `pipecat_conversation_relay` transport package.

Modelling conventions:
* JSON `message.get(key)` results are `Option` values (`none` = key absent or
  JSON null). Where the source supplies a non-`None` default
  (`message.get("voicePrompt", "")`, `message.get("last", False)`), the field of
  the embedded message record holds the value *after* that default is applied,
  except that a present-but-null JSON value still yields `none` (Python's
  `dict.get` only applies the default for a missing key).
* Python exceptions are `Except PyError`; `except Exception` catches every
  `PyError`, while task cancellation (`asyncio.CancelledError`, a
  `BaseException` in Python >= 3.8) is modelled separately as a loop
  termination cause, since `except Exception` does not catch it.
* Callbacks are modelled by whether they are registered (`Bool`); an invocation
  is recorded as an `Action`. Downstream `push_frame` calls are likewise
  recorded as `Action.pushFrame` values.
* `TranscriptionFrame.timestamp` (wall-clock `time.time()`) is not modelled;
  the frame keeps the `text`, `user_id` and `language` fields.
* Websocket sends are recorded as the `OutMsg` values handed to
  `websocket.send_json`; a send is gated on `client_state == CONNECTED` and a
  transport-level failure (`sendFails`) is caught and swallowed, exactly as in
  `_send_json`.
-/

namespace ConversationRelay

/-- Python exception kinds that the embedded code can raise. -/
inductive PyError
  | attributeError
  | valueError
deriving DecidableEq

/-- `starlette.websockets.WebSocketState` of the shared connection. -/
inductive WebSocketState
  | connecting
  | connected
  | disconnected
deriving DecidableEq

/-- Frames pushed downstream by the input transport
(`TranscriptionFrame`, `ErrorFrame`, `CancelFrame`). -/
inductive Frame
  | transcription (text : String) (userId : String) (lang : Option String)
  | error (description : String)
  | cancel
deriving DecidableEq

/-- Observable effects of handling one inbound message: a callback invocation
or a `push_frame` call. -/
inductive Action
  | callbackSetup (sessionId : String) (callSid : String)
  | callbackInterrupt (utteranceUntilInterrupt : Option String)
      (durationUntilInterruptMs : Option Int)
  | callbackDtmf (digit : String)
  | callbackError (description : String)
  | pushFrame (f : Frame)
deriving DecidableEq

/-- `ConversationRelayCallbacks`: which of the four optional callbacks are
registered. -/
structure ConversationRelayCallbacks where
  on_setup : Bool := false
  on_interrupt : Bool := false
  on_dtmf : Bool := false
  on_error : Bool := false
deriving DecidableEq

/-- The default callback set (`ConversationRelayCallbacks()`): nothing
registered. -/
def noCallbacks : ConversationRelayCallbacks := {}

/-- Mutable state of `ConversationRelayInputTransport`:
session identity plus the start latch and the receive task handle. -/
structure InputState where
  sessionId : Option String := none
  callSid : Option String := none
  initialized : Bool := false
  receiveTask : Bool := false
deriving DecidableEq

/-- `ConversationRelayInputTransport.__init__`: identity absent, latch unset,
no receive task. -/
def inputInit : InputState := {}

/-- Fields of an inbound `setup` message used by `_handle_setup`
(`none` = key absent or JSON null). -/
structure SetupMsg where
  sessionId : Option String := none
  callSid : Option String := none
deriving DecidableEq

/-- Fields of an inbound `prompt` message as read by `_handle_prompt`:
`last` is `message.get("last", False)` (so a missing key is `false`);
`voicePrompt` is `none` only for a present-but-null value, since a missing
key defaults to `""` (i.e. `some ""`). -/
structure PromptMsg where
  last : Bool := false
  voicePrompt : Option String := some ("")
  lang : Option String := none
deriving DecidableEq

/-- Fields of an inbound `interrupt` message used by `_handle_interrupt`. -/
structure InterruptMsg where
  utteranceUntilInterrupt : Option String := none
  durationUntilInterruptMs : Option Int := none
deriving DecidableEq

/-- Parsed inbound messages, dispatched on the `type` field; `unknown` is any
unrecognized `type`. -/
inductive InMsg
  | setup (m : SetupMsg)
  | prompt (m : PromptMsg)
  | interrupt (m : InterruptMsg)
  | dtmf (digit : Option String)
  | error (description : Option String)
  | unknown
deriving DecidableEq

/-- One item of the inbound text stream: a JSON-parsable message or a payload
that fails `json.loads`. -/
inductive WireItem
  | json (m : InMsg)
  | nonJson (raw : String)
deriving DecidableEq

/-- `_handle_setup`: unconditionally assigns `self._session_id` and
`self._call_sid` from the message, then invokes `on_setup` if registered
(event identity fields default to `""`). -/
def handleSetup (cbs : ConversationRelayCallbacks) (st : InputState)
    (m : SetupMsg) : InputState × List Action :=
  let st' := { st with sessionId := m.sessionId, callSid := m.callSid }
  (st', if cbs.on_setup then
          [Action.callbackSetup (m.sessionId.getD ("")) (m.callSid.getD (""))]
        else [])

/-- Python's `str.strip()`: remove leading and trailing whitespace. -/
def pyStrip (s : String) : String :=
  String.mk
    (((s.data.dropWhile Char.isWhitespace).reverse.dropWhile
        Char.isWhitespace).reverse)

/-- `_handle_prompt`: drop non-final prompts; on a final prompt, strip the
text (raising `AttributeError` when `voicePrompt` is JSON null, since
`None.strip()` fails), drop it when empty after stripping, otherwise build a
`TranscriptionFrame` with the untrimmed text. -/
def handlePrompt (m : PromptMsg) : Except PyError (Option Frame) :=
  if !m.last then Except.ok none
  else
    match m.voicePrompt with
    | none => Except.error PyError.attributeError
    | some vp =>
        if pyStrip vp = "" then Except.ok none
        else Except.ok (some (Frame.transcription vp ("") m.lang))

/-- `_handle_interrupt`: callback only (no downstream frame). -/
def handleInterrupt (cbs : ConversationRelayCallbacks) (m : InterruptMsg) :
    List Action :=
  if cbs.on_interrupt then
    [Action.callbackInterrupt m.utteranceUntilInterrupt m.durationUntilInterruptMs]
  else []

/-- `_handle_dtmf`: callback only, digit defaulting to `""`. -/
def handleDtmf (cbs : ConversationRelayCallbacks) (digit : Option String) :
    List Action :=
  if cbs.on_dtmf then [Action.callbackDtmf (digit.getD (""))] else []

/-- `_handle_error`: description defaults to `"Unknown error"`; invoke the
callback when registered, then unconditionally push an `ErrorFrame`. -/
def handleError (cbs : ConversationRelayCallbacks) (d : Option String) :
    List Action :=
  let description := d.getD ("Unknown error")
  (if cbs.on_error then [Action.callbackError description] else [])
    ++ [Action.pushFrame (Frame.error description)]

/-- The dispatch on `message.get("type")` inside `_receive_messages`; an
exception escaping a handler propagates out of the dispatch. -/
def handleMessage (cbs : ConversationRelayCallbacks) (st : InputState) :
    InMsg → Except PyError (InputState × List Action)
  | InMsg.setup m => Except.ok (handleSetup cbs st m)
  | InMsg.prompt m =>
      (handlePrompt m).map fun fr =>
        (st, match fr with
             | some f => [Action.pushFrame f]
             | none => [])
  | InMsg.interrupt m => Except.ok (st, handleInterrupt cbs m)
  | InMsg.dtmf d => Except.ok (st, handleDtmf cbs d)
  | InMsg.error d => Except.ok (st, handleError cbs d)
  | InMsg.unknown => Except.ok (st, [])

/-- Result of iterating the inbound stream: final state, emitted actions, and
whether the iteration was aborted by an exception escaping a message handler
(caught by the loop's `except Exception`). -/
structure LoopResult where
  st : InputState
  acts : List Action
  aborted : Bool
deriving DecidableEq

/-- The `async for` body of `_receive_messages`: a non-JSON payload is logged
and skipped; a handler exception aborts the iteration (the remaining items are
never read). -/
def runMessages (cbs : ConversationRelayCallbacks) :
    InputState → List WireItem → LoopResult
  | st, [] => ⟨st, [], false⟩
  | st, WireItem.nonJson _ :: rest => runMessages cbs st rest
  | st, WireItem.json m :: rest =>
      match handleMessage cbs st m with
      | Except.ok (st', acts) =>
          let r := runMessages cbs st' rest
          ⟨r.st, acts ++ r.acts, r.aborted⟩
      | Except.error _ => ⟨st, [], true⟩

/-- How the receive loop's iteration over the websocket ends. -/
inductive TermCause
  | closed
  | closedByError
  | cancelled
deriving DecidableEq

/-- `_receive_messages`: after the iteration ends, push a `CancelFrame` —
except that task cancellation raises `asyncio.CancelledError`, a
`BaseException` which `except Exception` does not catch, so the
`push_frame(CancelFrame())` line is never reached on cancellation. A handler
exception (`aborted`) is an ordinary `Exception`, is caught, and the
`CancelFrame` is pushed. -/
def receiveLoop (cbs : ConversationRelayCallbacks) (st : InputState)
    (items : List WireItem) (term : TermCause) : InputState × List Action :=
  let r := runMessages cbs st items
  if r.aborted then (r.st, r.acts ++ [Action.pushFrame Frame.cancel])
  else
    match term with
    | TermCause.cancelled => (r.st, r.acts)
    | _ => (r.st, r.acts ++ [Action.pushFrame Frame.cancel])

/-- Number of cancellation events among the emitted actions. -/
def countCancels : List Action → Nat
  | [] => 0
  | a :: rest =>
      (if a = Action.pushFrame Frame.cancel then 1 else 0) + countCancels rest

/-- Lifecycle operations on the input transport. -/
inductive LifecycleOp
  | startOp
  | stopOp
  | cancelOp
deriving DecidableEq

/-- `ConversationRelayInputTransport.start`: returns the new state and whether
a new receive task was spawned. The `_initialized` latch short-circuits every
later call. -/
def start (st : InputState) : InputState × Bool :=
  if st.initialized then (st, false)
  else
    let st' := { st with initialized := true }
    if st'.receiveTask then (st', false)
    else ({ st' with receiveTask := true }, true)

/-- `_stop_tasks` (reached from both `stop` and `cancel`): cancel and clear the
receive task if present. The websocket close has no effect on this state. -/
def stopTasks (st : InputState) : InputState :=
  if st.receiveTask then { st with receiveTask := false } else st

/-- Effect of one lifecycle call on the input transport state
(`cancel` and `stop` coincide on the modelled state). -/
def applyLifecycle (st : InputState) : LifecycleOp → InputState
  | LifecycleOp.startOp => (start st).1
  | LifecycleOp.stopOp => stopTasks st
  | LifecycleOp.cancelOp => stopTasks st

/-- Outbound wire messages, as the dict literals built by
`ConversationRelayOutputTransport`; an `Option` field is present in the dict
exactly when it is `some`. -/
inductive OutMsg
  | text (token : String) (last : Bool) (interruptible : Bool)
  | endSession (handoffData : Option String)
  | play (source : String) (loop : Int) (interruptible : Bool)
      (preemptible : Bool)
  | sendDigits (digits : String)
  | language (ttsLanguage : Option String) (transcriptionLanguage : Option String)
deriving DecidableEq

/-- `_send_json`: send only when the client state is `CONNECTED`; a
transport-level failure (`sendFails`) is caught and logged, never re-raised.
The result lists the messages actually delivered to the network. -/
def sendJson (st : WebSocketState) (sendFails : Bool) (m : OutMsg) :
    List OutMsg :=
  if st = WebSocketState.connected ∧ !sendFails then [m] else []

/-- Pipeline frames reaching `ConversationRelayOutputTransport.process_frame`:
`LLMFullResponseEndFrame`, `TextFrame`, or anything else (handed to the base
class, which performs no protocol sends since audio/video are disabled). -/
inductive PFrame
  | llmFullResponseEnd
  | text (s : String)
  | other
deriving DecidableEq

/-- `process_frame`: the pair of (messages handed to `_send_json`, frames
pushed downstream); the session-level `interruptible` default is stamped on
every non-final token, and the final sentinel forces `last=true`,
`interruptible=false`. -/
def processFrame (interruptible : Bool) : PFrame → List OutMsg × List PFrame
  | PFrame.llmFullResponseEnd =>
      ([OutMsg.text ("") true false], [PFrame.llmFullResponseEnd])
  | PFrame.text s => ([OutMsg.text s false interruptible], [PFrame.text s])
  | PFrame.other => ([], [PFrame.other])

/-- Network sends produced by one frame, after the `_send_json` gating
(no transport failures). -/
def frameSends (interruptible : Bool) (st : WebSocketState) (f : PFrame) :
    List OutMsg :=
  (processFrame interruptible f).1.foldr
    (fun m acc => sendJson st false m ++ acc) []

/-- Network sends produced by a sequence of pipeline frames. -/
def outputSends (interruptible : Bool) (st : WebSocketState) :
    List PFrame → List OutMsg
  | [] => []
  | f :: rest => frameSends interruptible st f ++ outputSends interruptible st rest

/-- The explicit outbound operations of `ConversationRelayOutputTransport`
(plus the two internal token sends of `process_frame`). -/
inductive Op
  | textToken (token : String)
  | lastToken
  | endSession (handoffData : Option String)
  | play (source : String) (loop : Int) (interruptible : Option Bool)
      (preemptible : Bool)
  | sendDigits (digits : String)
  | language (ttsLanguage : Option String) (transcriptionLanguage : Option String)
deriving DecidableEq

/-- The message an operation builds before calling `_send_json`.
`send_language` raises `ValueError` when both languages are omitted, before
any network interaction; `send_play` fills the `interruptible` field from the
per-call argument or the session default. -/
def buildMessage (dflt : Bool) : Op → Except PyError OutMsg
  | Op.textToken t => Except.ok (OutMsg.text t false dflt)
  | Op.lastToken => Except.ok (OutMsg.text ("") true false)
  | Op.endSession h => Except.ok (OutMsg.endSession h)
  | Op.play src l intr pre => Except.ok (OutMsg.play src l (intr.getD dflt) pre)
  | Op.sendDigits d => Except.ok (OutMsg.sendDigits d)
  | Op.language none none => Except.error PyError.valueError
  | Op.language tts tr => Except.ok (OutMsg.language tts tr)

/-- Running one outbound operation: build the message, then `_send_json` it.
The only way this raises is the `send_language` precondition check. -/
def performOp (dflt : Bool) (st : WebSocketState) (sendFails : Bool) (op : Op) :
    Except PyError (List OutMsg) :=
  (buildMessage dflt op).map (sendJson st sendFails)

/-- `pipecat.transports.base_transport.TransportParams`, restricted to the
fields this package touches (the four media-enable flags) plus the sample-rate
fields as representatives of the untouched remainder of the configuration. -/
structure TransportParams where
  audio_in_enabled : Bool := false
  audio_out_enabled : Bool := false
  video_in_enabled : Bool := false
  video_out_enabled : Bool := false
  audio_in_sample_rate : Nat := 16000
  audio_out_sample_rate : Nat := 24000
deriving DecidableEq

/-- The session façade after `ConversationRelayTransport.__init__`:
the stored params and the params handed to each of the two relays. -/
structure ConversationRelayTransport where
  params : TransportParams
  inputParams : TransportParams
  outputParams : TransportParams
  interruptible : Bool
deriving DecidableEq

/-- `ConversationRelayTransport.__init__`: default the params when not
supplied, then overwrite all four media flags to disabled, and construct both
relays with the resulting params object. -/
def conversationRelayTransportInit (params? : Option TransportParams)
    (interruptible : Bool) : ConversationRelayTransport :=
  let p0 := params?.getD
    { audio_in_enabled := false, audio_out_enabled := false,
      video_in_enabled := false, video_out_enabled := false }
  let p := { p0 with audio_in_enabled := false, audio_out_enabled := false,
                     video_in_enabled := false, video_out_enabled := false }
  { params := p, inputParams := p, outputParams := p,
    interruptible := interruptible }

/-- A setup message with concrete identity values, for concrete runs. -/
def setupA : SetupMsg := { sessionId := some ("S1"), callSid := some ("C1") }

/-- A second, distinct setup message, for concrete runs. -/
def setupB : SetupMsg := { sessionId := some ("S2"), callSid := some ("C2") }

/-- A frame produced by `_handle_prompt` is a transcription frame built from a
final prompt whose text is non-empty after stripping, carrying the untrimmed
text. -/
theorem handlePrompt_frame (m : PromptMsg) (f : Frame)
    (h : handlePrompt m = Except.ok (some f)) :
    ∃ vp, m.voicePrompt = some vp ∧ pyStrip vp ≠ "" ∧ m.last = true ∧
      f = Frame.transcription vp ("") m.lang := by
  unfold handlePrompt at h
  cases hl : m.last <;> rw [hl] at h <;> simp at h
  cases hv : m.voicePrompt <;> rw [hv] at h <;> simp at h
  rename_i vp
  by_cases ht : pyStrip vp = "" <;> simp [ht] at h
  exact ⟨vp, rfl, ht, rfl, h.symm⟩

/-- `countCancels` distributes over concatenation. -/
theorem countCancels_append (xs ys : List Action) :
    countCancels (xs ++ ys) = countCancels xs + countCancels ys := by
  induction xs with
  | nil => simp [countCancels]
  | cons a xs ih => simp [countCancels, ih, Nat.add_assoc]

/-- No message handler ever pushes a `CancelFrame`. -/
theorem handler_no_cancel (cbs : ConversationRelayCallbacks) (st : InputState)
    (m : InMsg) (p : InputState × List Action)
    (h : handleMessage cbs st m = Except.ok p) : countCancels p.2 = 0 := by
  cases m with
  | setup sm =>
      simp [handleMessage] at h
      rw [← h, handleSetup]
      split <;> simp [countCancels]
  | prompt pm =>
      cases hp : handlePrompt pm with
      | error e => simp [handleMessage, hp, Except.map] at h
      | ok fr =>
          simp [handleMessage, hp, Except.map] at h
          cases fr with
          | none => rw [← h]; rfl
          | some f =>
              obtain ⟨vp, hv, ht, hl, hfe⟩ := handlePrompt_frame pm f hp
              subst hfe
              rw [← h]
              simp [countCancels]
  | interrupt im =>
      simp [handleMessage] at h
      rw [← h, handleInterrupt]
      split <;> simp [countCancels]
  | dtmf d =>
      simp [handleMessage] at h
      rw [← h, handleDtmf]
      split <;> simp [countCancels]
  | error d =>
      simp [handleMessage] at h
      rw [← h, handleError]
      split <;> simp [countCancels, countCancels_append]
  | unknown =>
      simp [handleMessage] at h
      rw [← h]
      rfl

/-- Iterating the message stream never pushes a `CancelFrame`; in the source,
only the line after the receive loop does. -/
theorem runMessages_no_cancel (cbs : ConversationRelayCallbacks)
    (st : InputState) (items : List WireItem) :
    countCancels (runMessages cbs st items).acts = 0 := by
  induction items generalizing st with
  | nil => rfl
  | cons it rest ih =>
      cases it with
      | nonJson s => simpa [runMessages] using ih st
      | json m =>
          cases hm : handleMessage cbs st m with
          | ok p =>
              obtain ⟨st', acts⟩ := p
              simp [runMessages, hm, countCancels_append,
                handler_no_cancel cbs st m (st', acts) hm, ih st']
          | error e => simp [runMessages, hm, countCancels]

/-- The `initialized` latch survives every lifecycle operation. -/
theorem applyLifecycle_initialized (st : InputState) (op : LifecycleOp)
    (h : st.initialized = true) : (applyLifecycle st op).initialized = true := by
  cases op <;> simp [applyLifecycle, start, stopTasks, h] <;> split <;> simp [h]

/-- The `initialized` latch survives any sequence of lifecycle operations. -/
theorem foldl_lifecycle_initialized (ops : List LifecycleOp) (st : InputState)
    (h : st.initialized = true) :
    (ops.foldl applyLifecycle st).initialized = true := by
  induction ops generalizing st with
  | nil => exact h
  | cons op rest ih => exact ih _ (applyLifecycle_initialized st op h)

/-- Claim C1: for every inbound prompt message, `_handle_prompt` emits a
transcription frame if and only if the message's `last` flag is true and the
utterance text is a non-null string that is non-empty after trimming; and an
emitted frame carries the untrimmed utterance text. Non-final prompts, finals
trimming to empty, and finals with null text never produce one (the null case
raises instead of emitting). -/
theorem prompt_transcription_iff (m : PromptMsg) :
    ((∃ f, handlePrompt m = Except.ok (some f)) ↔
      m.last = true ∧ ∃ vp, m.voicePrompt = some vp ∧ pyStrip vp ≠ "") ∧
    (∀ vp f, m.voicePrompt = some vp → handlePrompt m = Except.ok (some f) →
      f = Frame.transcription vp ("") m.lang) := by
  constructor
  · constructor
    · rintro ⟨f, hf⟩
      obtain ⟨vp, hv, ht, hl, _⟩ := handlePrompt_frame m f hf
      exact ⟨hl, vp, hv, ht⟩
    · rintro ⟨hl, vp, hv, ht⟩
      exact ⟨Frame.transcription vp ("") m.lang, by simp [handlePrompt, hl, hv, ht]⟩
  · intro vp f hv hf
    obtain ⟨vp2, hv2, _, _, hfe⟩ := handlePrompt_frame m f hf
    rw [hv] at hv2
    cases hv2
    exact hfe

/-- Witness for C1 at a concrete final prompt with non-blank text. -/
theorem prompt_transcription_iff_witness :
    ∃ f, handlePrompt { last := true, voicePrompt := some ("hi") } =
      Except.ok (some f) :=
  (prompt_transcription_iff { last := true, voicePrompt := some ("hi") }).1.mpr
    ⟨rfl, ("hi"), rfl, by decide⟩

/-- Claim C2: processing N text frames followed by one response-end frame on a
connected socket performs exactly N non-final sends, each echoing its token
with the session-level interruptible default, followed by exactly one final
send with empty token, `last=true`, `interruptible=false` — also when N = 0. -/
theorem streaming_response_sends (b : Bool) (tokens : List String) :
    outputSends b WebSocketState.connected
        (tokens.map PFrame.text ++ [PFrame.llmFullResponseEnd]) =
      tokens.map (fun t => OutMsg.text t false b)
        ++ [OutMsg.text ("") true false] := by
  induction tokens with
  | nil => rfl
  | cons t ts ih =>
      simpa [outputSends, frameSends, processFrame, sendJson] using ih

/-- Claim C3 counterexample: a receive loop terminated by task cancellation
(with zero messages received) emits zero cancellation events, because
`asyncio.CancelledError` is a `BaseException` that the loop's
`except Exception` does not catch, so the `push_frame(CancelFrame())` line is
never reached. -/
theorem cancelled_loop_emits_no_cancel :
    countCancels (receiveLoop noCallbacks inputInit [] TermCause.cancelled).2
      = 0 := rfl

/-- Claim C3 amended: whenever the receive loop terminates by the connection
closing (normally or by error) or by an exception escaping a message handler,
exactly one cancellation event is emitted, even with zero messages received;
termination by task cancellation is excluded. -/
theorem loop_termination_emits_one_cancel (cbs : ConversationRelayCallbacks)
    (st : InputState) (items : List WireItem) (term : TermCause)
    (h : term ≠ TermCause.cancelled) :
    countCancels (receiveLoop cbs st items term).2 = 1 := by
  have h0 := runMessages_no_cancel cbs st items
  unfold receiveLoop
  cases hb : (runMessages cbs st items).aborted <;> cases term <;>
    simp_all [countCancels_append, countCancels]

/-- Witness for the amended C3: a loop over zero messages ending in a normal
close emits exactly one cancellation event. -/
theorem loop_termination_emits_one_cancel_witness :
    countCancels (receiveLoop noCallbacks inputInit [] TermCause.closed).2 = 1 :=
  loop_termination_emits_one_cancel noCallbacks inputInit [] TermCause.closed
    (by decide)

/-- Claim C4 counterexample: a final prompt with null utterance text raises
`AttributeError` inside its handling, which ends the receive loop — the
well-formed prompt following it is never processed (alone, that prompt would
have produced a transcription frame). -/
theorem handler_exception_aborts_loop_cex :
    ((receiveLoop noCallbacks inputInit
        [WireItem.json (InMsg.prompt { last := true, voicePrompt := none }),
         WireItem.json (InMsg.prompt { last := true, voicePrompt := some ("hi") })]
        TermCause.closed).2
      = [Action.pushFrame Frame.cancel]) ∧
    ((receiveLoop noCallbacks inputInit
        [WireItem.json (InMsg.prompt { last := true, voicePrompt := some ("hi") })]
        TermCause.closed).2
      = [Action.pushFrame (Frame.transcription ("hi") ("") none),
         Action.pushFrame Frame.cancel]) := by
  decide

/-- Claim C4 amended: only malformed non-JSON payloads are contained (logged
and skipped, the loop continuing unchanged); an exception escaping any message
handler terminates the loop regardless of the remaining inbound messages, after
which the single cancellation event is emitted. -/
theorem per_message_containment_amended :
    (∀ (cbs : ConversationRelayCallbacks) (st : InputState) (raw : String)
        (rest : List WireItem) (term : TermCause),
        receiveLoop cbs st (WireItem.nonJson raw :: rest) term =
          receiveLoop cbs st rest term) ∧
    (∀ (cbs : ConversationRelayCallbacks) (st : InputState) (m : InMsg)
        (e : PyError) (rest : List WireItem) (term : TermCause),
        handleMessage cbs st m = Except.error e →
        receiveLoop cbs st (WireItem.json m :: rest) term =
          (st, [Action.pushFrame Frame.cancel])) := by
  constructor
  · intro cbs st raw rest term
    simp [receiveLoop, runMessages]
  · intro cbs st m e rest term hm
    simp [receiveLoop, runMessages, hm]

/-- Witness for the amended C4: the null-text prompt terminates a concrete
loop with exactly the cancellation emission. -/
theorem per_message_containment_amended_witness :
    receiveLoop noCallbacks inputInit
        [WireItem.json (InMsg.prompt { last := true, voicePrompt := none })]
        TermCause.closed
      = (inputInit, [Action.pushFrame Frame.cancel]) :=
  per_message_containment_amended.2 noCallbacks inputInit
    (InMsg.prompt { last := true, voicePrompt := none })
    PyError.attributeError [] TermCause.closed rfl

/-- Claim C5: handling an inbound error message yields a single description
(defaulted when absent) such that the `on_error` callback is invoked with it
exactly when registered, a downstream error frame carrying it is always
emitted, and no other callback or frame is produced. -/
theorem error_message_callback_and_frame (cbs : ConversationRelayCallbacks)
    (d : Option String) :
    ∃ desc,
      (Action.callbackError desc ∈ handleError cbs d ↔ cbs.on_error = true) ∧
      Action.pushFrame (Frame.error desc) ∈ handleError cbs d ∧
      (∀ a, a ∈ handleError cbs d →
        a = Action.callbackError desc ∨ a = Action.pushFrame (Frame.error desc)) := by
  refine ⟨d.getD ("Unknown error"), ?_, ?_, ?_⟩ <;>
    cases h : cbs.on_error <;> simp [handleError, h]

/-- Witness for C5: with no callback registered, the downstream error frame is
still emitted. -/
theorem error_message_callback_and_frame_witness :
    ∃ desc, Action.pushFrame (Frame.error desc) ∈
      handleError noCallbacks (some ("boom")) := by
  obtain ⟨desc, _, hmem, _⟩ :=
    error_message_callback_and_frame noCallbacks (some ("boom"))
  exact ⟨desc, hmem⟩

/-- Claim C6 counterexample: a second setup message overwrites the session
identity captured from the first — after `setupA` then `setupB`, the stored
session id is `S2`, not the first-written `S1`. -/
theorem second_setup_overwrites_identity :
    ((handleSetup noCallbacks (handleSetup noCallbacks inputInit setupA).1
        setupB).1.sessionId = some ("S2")) ∧
    ((handleSetup noCallbacks inputInit setupA).1.sessionId = some ("S1")) ∧
    (some ("S2") ≠ (some ("S1") : Option String)) := by
  decide

/-- Claim C6 amended: the session identity fields are `None` before any setup
message, and every setup message (re)assigns them to its own values — the
relay holds the most recent setup's identity, not immutably the first's. -/
theorem setup_writes_latest_identity (cbs : ConversationRelayCallbacks)
    (st : InputState) (m : SetupMsg) :
    (handleSetup cbs st m).1.sessionId = m.sessionId ∧
    (handleSetup cbs st m).1.callSid = m.callSid ∧
    inputInit.sessionId = none ∧ inputInit.callSid = none := by
  simp [handleSetup, inputInit]

/-- Claim C7: `send_language` raises `ValueError` (sending nothing) exactly
when both languages are omitted; otherwise the built message carries exactly
the supplied fields and no error is raised. -/
theorem set_language_precondition (dflt : Bool) (st : WebSocketState)
    (fails : Bool) (tts tr : Option String) :
    (performOp dflt st fails (Op.language tts tr) =
        Except.error PyError.valueError ↔ tts = none ∧ tr = none) ∧
    (¬(tts = none ∧ tr = none) →
      buildMessage dflt (Op.language tts tr) =
        Except.ok (OutMsg.language tts tr)) := by
  cases tts <;> cases tr <;> simp [performOp, buildMessage, Except.map]

/-- Witness for C7 at a single supplied language. -/
theorem set_language_precondition_witness :
    buildMessage true (Op.language (some ("sv-SE")) none) =
      Except.ok (OutMsg.language (some ("sv-SE")) none) :=
  (set_language_precondition true WebSocketState.connected false
    (some ("sv-SE")) none).2 (by simp)

/-- Claim C8 counterexample: the `language` operation with both fields omitted
raises `ValueError` even on a disconnected connection, so not every outbound
operation is raise-free when disconnected. -/
theorem disconnected_language_raises :
    performOp true WebSocketState.disconnected false (Op.language none none)
      = Except.error PyError.valueError := rfl

/-- Claim C8 amended: every outbound operation except the no-argument
`language` call returns without raising for every connection state and every
transport-failure outcome, and performs zero network sends whenever the
connection is not in the connected state. -/
theorem send_discipline_amended (dflt : Bool) (st : WebSocketState)
    (fails : Bool) (op : Op) (hop : op ≠ Op.language none none) :
    (∃ ms, performOp dflt st fails op = Except.ok ms) ∧
    (st ≠ WebSocketState.connected →
      performOp dflt st fails op = Except.ok []) := by
  have hb : ∃ m, buildMessage dflt op = Except.ok m := by
    cases op with
    | textToken t => exact ⟨_, rfl⟩
    | lastToken => exact ⟨_, rfl⟩
    | endSession h => exact ⟨_, rfl⟩
    | play s l i pre => exact ⟨_, rfl⟩
    | sendDigits d => exact ⟨_, rfl⟩
    | language tts tr =>
        cases tts with
        | none =>
            cases tr with
            | none => exact absurd rfl hop
            | some b => exact ⟨_, rfl⟩
        | some a =>
            cases tr with
            | none => exact ⟨_, rfl⟩
            | some b => exact ⟨_, rfl⟩
  obtain ⟨mm, hm⟩ := hb
  constructor
  · exact ⟨sendJson st fails mm, by simp [performOp, hm, Except.map]⟩
  · intro hst
    simp [performOp, hm, sendJson, hst, Except.map]

/-- Witness for the amended C8: `send_digits` on a disconnected connection
performs zero sends and does not raise. -/
theorem send_discipline_amended_witness :
    performOp true WebSocketState.disconnected false (Op.sendDigits ("12"))
      = Except.ok [] :=
  (send_discipline_amended true WebSocketState.disconnected false
    (Op.sendDigits ("12")) (by decide)).2 (by decide)

/-- Claim C9: for every caller-supplied configuration (or none), the façade's
constructor yields params with all four media flags disabled, and that same
params object is the one given to both the input and the output relay. -/
theorem media_flags_forced_off (params? : Option TransportParams)
    (intr : Bool) :
    ((conversationRelayTransportInit params? intr).params.audio_in_enabled
        = false ∧
     (conversationRelayTransportInit params? intr).params.audio_out_enabled
        = false ∧
     (conversationRelayTransportInit params? intr).params.video_in_enabled
        = false ∧
     (conversationRelayTransportInit params? intr).params.video_out_enabled
        = false) ∧
    (conversationRelayTransportInit params? intr).inputParams =
      (conversationRelayTransportInit params? intr).params ∧
    (conversationRelayTransportInit params? intr).outputParams =
      (conversationRelayTransportInit params? intr).params := by
  cases params? <;> simp [conversationRelayTransportInit]

/-- Claim C10: once the input transport is initialized, the latch survives any
sequence of start/stop/cancel calls, and a later `start` spawns no new receive
task and leaves the state unchanged — a stopped relay cannot be restarted. -/
theorem start_latch_permanent (st : InputState) (ops : List LifecycleOp)
    (h : st.initialized = true) :
    (ops.foldl applyLifecycle st).initialized = true ∧
    (start (ops.foldl applyLifecycle st)).2 = false ∧
    (start (ops.foldl applyLifecycle st)).1 = ops.foldl applyLifecycle st := by
  have h2 := foldl_lifecycle_initialized ops st h
  refine ⟨h2, ?_, ?_⟩ <;> simp [start, h2]

/-- Witness for C10: after a first `start` and a `stop`, a second `start`
spawns nothing and changes nothing. -/
theorem start_latch_permanent_witness :
    (([LifecycleOp.stopOp].foldl applyLifecycle (start inputInit).1).initialized
        = true) ∧
    (start ([LifecycleOp.stopOp].foldl applyLifecycle (start inputInit).1)).2
        = false ∧
    (start ([LifecycleOp.stopOp].foldl applyLifecycle (start inputInit).1)).1
        = [LifecycleOp.stopOp].foldl applyLifecycle (start inputInit).1 :=
  start_latch_permanent (start inputInit).1 [LifecycleOp.stopOp] (by decide)

end ConversationRelay
